import Mathlib

/-!
Verification of the `Polygon3` core of the csg.js repository.

The polygon operations themselves (`src/core/math/Polygon3.js`) are embedded
directly from the source.  The leaf collaborators (`Vector3`, `Vertex3`,
`Plane`, `Matrix4` and the constants module) are out of scope of the source
tree and are modelled from the specification's description of their
capabilities.  Vertex coordinates are embedded as rationals; Euclidean lengths
(which the code obtains via a square root) live in `ℝ`.
-/

namespace CSG

/-- Modelled from the spec: the external vector algebra (`Vector3.js` is not in
scope).  A 3-vector of rational coordinates. -/
structure Vector3 where
  x : ℚ
  y : ℚ
  z : ℚ
deriving DecidableEq, Repr

/-- Modelled from the spec: componentwise addition (`Vector3.plus`). -/
def Vector3.plus (a b : Vector3) : Vector3 :=
  ⟨a.x + b.x, a.y + b.y, a.z + b.z⟩

/-- Modelled from the spec: componentwise subtraction (`Vector3.minus`). -/
def Vector3.minus (a b : Vector3) : Vector3 :=
  ⟨a.x - b.x, a.y - b.y, a.z - b.z⟩

/-- Modelled from the spec: scalar multiplication (`Vector3.times`). -/
def Vector3.times (a : Vector3) (k : ℚ) : Vector3 :=
  ⟨a.x * k, a.y * k, a.z * k⟩

/-- Modelled from the spec: componentwise negation (`Vector3.negated`). -/
def Vector3.negated (a : Vector3) : Vector3 :=
  ⟨-a.x, -a.y, -a.z⟩

/-- Modelled from the spec: the dot product (`Vector3.dot`). -/
def Vector3.dot (a b : Vector3) : ℚ :=
  a.x * b.x + a.y * b.y + a.z * b.z

/-- Modelled from the spec: the cross product (`Vector3.cross`). -/
def Vector3.cross (a b : Vector3) : Vector3 :=
  ⟨a.y * b.z - a.z * b.y, a.z * b.x - a.x * b.z, a.x * b.y - a.y * b.x⟩

/-- Modelled from the spec: componentwise minimum (`Vector3.min`). -/
def Vector3.min (a b : Vector3) : Vector3 :=
  ⟨Min.min a.x b.x, Min.min a.y b.y, Min.min a.z b.z⟩

/-- Modelled from the spec: componentwise maximum (`Vector3.max`). -/
def Vector3.max (a b : Vector3) : Vector3 :=
  ⟨Max.max a.x b.x, Max.max a.y b.y, Max.max a.z b.z⟩

/-- Modelled from the spec: squared Euclidean length (`Vector3.lengthSquared`). -/
def Vector3.lengthSquared (a : Vector3) : ℚ :=
  a.dot a

/-- Modelled from the spec: Euclidean length (`Vector3.length`), the square
root of the dot product of the vector with itself. -/
noncomputable def Vector3.length (a : Vector3) : ℝ :=
  Real.sqrt ((a.lengthSquared : ℚ) : ℝ)

/-- A 3-vector of real coordinates, used for the (unit) normal of a plane. -/
structure RVec3 where
  x : ℝ
  y : ℝ
  z : ℝ

/-- Negation of a real 3-vector. -/
def RVec3.negated (a : RVec3) : RVec3 :=
  ⟨-a.x, -a.y, -a.z⟩

/-- Dot product of real 3-vectors. -/
def RVec3.dot (a b : RVec3) : ℝ :=
  a.x * b.x + a.y * b.y + a.z * b.z

/-- Embedding of a rational vector into the real vectors. -/
def Vector3.toR (a : Vector3) : RVec3 :=
  ⟨(a.x : ℝ), (a.y : ℝ), (a.z : ℝ)⟩

/-- Modelled from the spec: the external vertex type (`Vertex3.js` is not in
scope): a position in 3-space plus an optional attached normal. -/
structure Vertex where
  pos : Vector3
  normal : Option Vector3
deriving DecidableEq, Repr

/-- The origin vertex, used as the (never reached) default of in-bounds list
indexing. -/
def Vertex.origin : Vertex :=
  ⟨⟨0, 0, 0⟩, none⟩

/-- Modelled from the spec: flipping a vertex negates any attached normal and
keeps the position. -/
def Vertex.flipped (v : Vertex) : Vertex :=
  ⟨v.pos, v.normal.map Vector3.negated⟩

/-- Modelled from the spec: the external plane type (`Plane.js` is not in
scope): a unit normal and a scalar offset. -/
structure Plane where
  normal : RVec3
  w : ℝ

/-- Modelled from the spec: flipping a plane negates the normal and the
offset. -/
def Plane.flipped (p : Plane) : Plane :=
  ⟨p.normal.negated, -p.w⟩

/-- Modelled from the spec: the external affine-transform type (`Matrix4.js`
is not in scope), exposed as capabilities: point mapping, plane mapping, and
the orientation-reversing (mirroring) predicate. -/
structure Matrix4 where
  mapPoint : Vector3 → Vector3
  mapPlane : Plane → Plane
  isMirroring : Bool

/-- Modelled from the spec: mapping a vertex through an affine transform maps
its position through the transform. -/
def Vertex.transform (v : Vertex) (m : Matrix4) : Vertex :=
  ⟨m.mapPoint v.pos, v.normal⟩

/-- Applying an affine transform to a plane defers to the external matrix
capability. -/
def Plane.transform (p : Plane) (m : Matrix4) : Plane :=
  m.mapPlane p

/-- Modelled from the spec: the external plane-from-three-points factory
(`Plane.fromVector3Ds`): the unit normal of the triangle together with its
offset along that normal. -/
noncomputable def Plane.fromVector3Ds (a b c : Vector3) : Plane :=
  let n := (b.minus a).cross (c.minus a)
  let u : RVec3 := ⟨(n.x : ℝ) / n.length, (n.y : ℝ) / n.length, (n.z : ℝ) / n.length⟩
  ⟨u, u.dot a.toR⟩

/-- Modelled from the spec: a translation matrix (`Matrix4x4.translation`),
a pure translation, which is not orientation-reversing. -/
def Matrix4.translation (offset : Vector3) : Matrix4 :=
  { mapPoint := fun v => v.plus offset
    mapPlane := fun p => ⟨p.normal, p.w + p.normal.dot offset.toR⟩
    isMirroring := false }

/-- Modelled from the spec: the small positive epsilon threshold of the
external constants module (`constants.js` is not in scope), used by the strict
convexity test. -/
def EPS : ℚ := 1 / 100000

/-- A JavaScript value as far as the `Shared` color machinery observes it:
either a number or an array of numbers. -/
inductive JSVal where
  | num (q : ℚ)
  | arr (l : List ℚ)
deriving DecidableEq, Repr

/-- The failures the embedded code can raise: the InvalidColor contract errors
(thrown as `Error` with a message) and JavaScript TypeErrors (such as calling
`.slice` on a number). -/
inductive JSError where
  | invalidColor (msg : String)
  | typeError (msg : String)
deriving DecidableEq, Repr

/-- Whether an error is one of the InvalidColor contract errors. -/
def JSError.isInvalidColor : JSError → Bool
  | .invalidColor _ => true
  | .typeError _ => false

/-- `Polygon3.Shared`: the shared (provenance) record, holding an optional
color array. -/
structure Polygon3.Shared where
  color : Option (List JSVal)
deriving DecidableEq, Repr

/-- The `Polygon3.Shared` constructor: a non-null color must be a 4 element
array, otherwise construction throws. -/
def Polygon3.Shared.make (color : Option (List JSVal)) : Except JSError Polygon3.Shared :=
  match color with
  | some c =>
      if c.length ≠ 4 then
        .error (.invalidColor "Expecting 4 element array")
      else
        .ok ⟨some c⟩
  | none => .ok ⟨none⟩

/-- The error message of `Polygon3.Shared.fromColor`. -/
def fromColorMsg : String :=
  "setColor expects either an array with 3 or 4 elements, or 3 or 4 parameters."

/-- `Polygon3.Shared.fromColor`, over the list of JavaScript arguments of the
call: a single argument is copied with `.slice()` (a TypeError on a number),
otherwise the arguments themselves form the color; a 3 element color gets
alpha 1 appended, a 4 element color is kept, anything else throws. -/
def Polygon3.Shared.fromColor (args : List JSVal) : Except JSError Polygon3.Shared :=
  let color? : Except JSError (List JSVal) :=
    if args.length = 1 then
      match args with
      | [JSVal.arr a] => .ok (a.map JSVal.num)
      | _ => .error (.typeError "arguments[0].slice is not a function")
    else
      .ok args
  match color? with
  | .error e => .error e
  | .ok c =>
      if c.length = 3 then
        Polygon3.Shared.make (some (c ++ [JSVal.num 1]))
      else if c.length ≠ 4 then
        .error (.invalidColor fromColorMsg)
      else
        Polygon3.Shared.make (some c)

/-- `Polygon3.defaultShared`: the single no-color instance. -/
def Polygon3.defaultShared : Polygon3.Shared :=
  ⟨none⟩

/-- `Polygon3`: an ordered vertex loop, a shared (provenance) reference and a
plane. -/
structure Polygon3 where
  vertices : List Vertex
  shared : Polygon3.Shared
  plane : Plane

/-- The `Polygon3` constructor.  `shared` is optional and defaults to
`Polygon3.defaultShared`; when no `plane` argument is passed the plane is
derived from the positions of the first three vertices, which fails (a
TypeError on `undefined.pos`, embedded as `none`) when there are fewer than
three vertices. -/
noncomputable def Polygon3.make (vertices : List Vertex) (shared : Option Polygon3.Shared)
    (plane : Option Plane) : Option Polygon3 :=
  let sh := shared.getD Polygon3.defaultShared
  match plane with
  | some pl => some ⟨vertices, sh, pl⟩
  | none =>
      match vertices with
      | v0 :: v1 :: v2 :: _ =>
          some ⟨vertices, sh, Plane.fromVector3Ds v0.pos v1.pos v2.pos⟩
      | _ => none

/-- `Polygon3.prototype.getSignedVolume`: fan tetrahedralization from vertex
0, accumulating the triple products and dividing by 6 at the end. -/
def Polygon3.getSignedVolume (p : Polygon3) : ℚ :=
  ((List.range (p.vertices.length - 2)).foldl
    (fun acc i =>
      acc + (p.vertices.getD 0 Vertex.origin).pos.dot
        (((p.vertices.getD (i + 1) Vertex.origin).pos).cross
          ((p.vertices.getD (i + 2) Vertex.origin).pos))) 0) / 6

/-- `Polygon3.prototype.getArea`: fan triangulation from vertex 0,
accumulating the cross-product magnitudes and halving at the end. -/
noncomputable def Polygon3.getArea (p : Polygon3) : ℝ :=
  ((List.range (p.vertices.length - 2)).foldl
    (fun acc i =>
      acc + (((p.vertices.getD (i + 1) Vertex.origin).pos.minus
          (p.vertices.getD 0 Vertex.origin).pos).cross
        ((p.vertices.getD (i + 2) Vertex.origin).pos.minus
          (p.vertices.getD (i + 1) Vertex.origin).pos)).length) 0) / 2

/-- `Polygon3.prototype.getTetraFeatures`: push the signed volume for each
"volume" entry and the area for each "area" entry, ignoring anything else. -/
noncomputable def Polygon3.getTetraFeatures (p : Polygon3) (features : List String) : List ℝ :=
  features.foldl
    (fun result feature =>
      if feature = "volume" then result ++ [(p.getSignedVolume : ℝ)]
      else if feature = "area" then result ++ [p.getArea]
      else result) []

/-- The bounding-box loop of `Polygon3.prototype.boundingBox`: start from the
first vertex position (the origin when there are no vertices) and fold the
componentwise minimum and maximum over the remaining vertices. -/
def boundingBoxCompute (vertices : List Vertex) : Vector3 × Vector3 :=
  let initial : Vector3 :=
    match vertices with
    | [] => ⟨0, 0, 0⟩
    | v :: _ => v.pos
  (vertices.drop 1).foldl
    (fun acc v => (acc.1.min v.pos, acc.2.max v.pos)) (initial, initial)

/-- `Polygon3.prototype.boundingBox` as a pure value (the memoization is
studied separately on the instance-state model). -/
def Polygon3.boundingBox (p : Polygon3) : Vector3 × Vector3 :=
  boundingBoxCompute p.vertices

/-- `Polygon3.prototype.boundingSphere` as a pure value: the midpoint of the
box corners and the length of the half-diagonal. -/
noncomputable def Polygon3.boundingSphere (p : Polygon3) : Vector3 × ℝ :=
  let box := p.boundingBox
  let middle := (box.1.plus box.2).times (1 / 2)
  let radius3 := box.2.minus middle
  (middle, radius3.length)

/-- `Polygon3.prototype.flipped`: flip every vertex, reverse the order, flip
the plane, keep the shared reference. -/
def Polygon3.flipped (p : Polygon3) : Polygon3 :=
  let newvertices := (p.vertices.map Vertex.flipped).reverse
  let newplane := p.plane.flipped
  ⟨newvertices, p.shared, newplane⟩

/-- `Polygon3.prototype.transform`: map every vertex and the plane through the
matrix; when the matrix is mirroring, reverse the vertex order. -/
def Polygon3.transform (p : Polygon3) (matrix4x4 : Matrix4) : Polygon3 :=
  let newvertices := p.vertices.map (fun v => v.transform matrix4x4)
  let newplane := p.plane.transform matrix4x4
  let newvertices := if matrix4x4.isMirroring then newvertices.reverse else newvertices
  ⟨newvertices, p.shared, newplane⟩

/-- `Polygon3.prototype.translate`: transform by a translation matrix. -/
def Polygon3.translate (p : Polygon3) (offset : Vector3) : Polygon3 :=
  p.transform (Matrix4.translation offset)

/-- `Polygon3.isConvexPoint`: whether three consecutive points form a convex
corner with respect to the plane normal. -/
def Polygon3.isConvexPoint (prevpoint point nextpoint normal : Vector3) : Bool :=
  let crossproduct := (point.minus prevpoint).cross (nextpoint.minus point)
  let crossdotnormal := crossproduct.dot normal
  decide (0 ≤ crossdotnormal)

/-- `Polygon3.isStrictlyConvexPoint`: the strict variant, requiring the dot
product to reach the epsilon threshold. -/
def Polygon3.isStrictlyConvexPoint (prevpoint point nextpoint normal : Vector3) : Bool :=
  let crossproduct := (point.minus prevpoint).cross (nextpoint.minus point)
  let crossdotnormal := crossproduct.dot normal
  decide (EPS ≤ crossdotnormal)

/-- The loop of `Polygon3.verticesConvex`, carrying the previous-previous and
previous positions and stopping at the first non-convex corner. -/
def verticesConvexLoop (normal : Vector3) : Vector3 → Vector3 → List Vector3 → Bool
  | _, _, [] => true
  | prevprevpos, prevpos, pos :: rest =>
      if Polygon3.isConvexPoint prevprevpos prevpos pos normal then
        verticesConvexLoop normal prevpos pos rest
      else
        false

/-- `Polygon3.verticesConvex`: loops of more than two vertices are walked with
the last two positions as the initial context; shorter loops are trivially
convex. -/
def Polygon3.verticesConvex (vertices : List Vertex) (planenormal : Vector3) : Bool :=
  let numvertices := vertices.length
  if 2 < numvertices then
    verticesConvexLoop planenormal
      (vertices.getD (numvertices - 2) Vertex.origin).pos
      (vertices.getD (numvertices - 1) Vertex.origin).pos
      (vertices.map Vertex.pos)
  else
    true

/-- The mutable instance state of a constructed polygon: the structural fields
together with the two memoization slots (`cachedBoundingBox` and
`cachedBoundingSphere`), which start out unset. -/
structure Polygon3State where
  poly : Polygon3
  cachedBoundingBox : Option (Vector3 × Vector3)
  cachedBoundingSphere : Option (Vector3 × ℝ)

/-- A freshly constructed polygon instance: both caches unset. -/
def Polygon3State.fresh (p : Polygon3) : Polygon3State :=
  ⟨p, none, none⟩

/-- `Polygon3.prototype.boundingBox` on the instance state: return the cache
when set, otherwise compute the box and store it. -/
def Polygon3State.boundingBox (s : Polygon3State) : (Vector3 × Vector3) × Polygon3State :=
  match s.cachedBoundingBox with
  | some bb => (bb, s)
  | none =>
      let bb := boundingBoxCompute s.poly.vertices
      (bb, { s with cachedBoundingBox := some bb })

/-- `Polygon3.prototype.boundingSphere` on the instance state: return the
cache when set, otherwise call `boundingBox` (possibly filling its cache),
compute the sphere and store it. -/
noncomputable def Polygon3State.boundingSphere (s : Polygon3State) : (Vector3 × ℝ) × Polygon3State :=
  match s.cachedBoundingSphere with
  | some bs => (bs, s)
  | none =>
      let r := s.boundingBox
      let middle := (r.1.1.plus r.1.2).times (1 / 2)
      let radius3 := r.1.2.minus middle
      let bs := (middle, radius3.length)
      (bs, { r.2 with cachedBoundingSphere := some bs })

/-- `transform` on the instance state: the result is a freshly constructed
polygon and the receiver is left as it was. -/
def Polygon3State.transform (s : Polygon3State) (m : Matrix4) : Polygon3State × Polygon3State :=
  (Polygon3State.fresh (s.poly.transform m), s)

/-- `translate` on the instance state. -/
def Polygon3State.translate (s : Polygon3State) (offset : Vector3) : Polygon3State × Polygon3State :=
  (Polygon3State.fresh (s.poly.translate offset), s)

/-- `flipped` on the instance state. -/
def Polygon3State.flipped (s : Polygon3State) : Polygon3State × Polygon3State :=
  (Polygon3State.fresh s.poly.flipped, s)

/-- `getSignedVolume` on the instance state. -/
def Polygon3State.getSignedVolume (s : Polygon3State) : ℚ × Polygon3State :=
  (s.poly.getSignedVolume, s)

/-- `getArea` on the instance state. -/
noncomputable def Polygon3State.getArea (s : Polygon3State) : ℝ × Polygon3State :=
  (s.poly.getArea, s)

/-- `getTetraFeatures` on the instance state. -/
noncomputable def Polygon3State.getTetraFeatures (s : Polygon3State) (features : List String) :
    List ℝ × Polygon3State :=
  (s.poly.getTetraFeatures features, s)

/-- `Polygon3.prototype.setColor`: build a new shared record from the call's
arguments, assign it to the receiver's `shared` field, and return the
receiver. -/
def Polygon3State.setColor (s : Polygon3State) (args : List JSVal) : Except JSError Polygon3State :=
  match Polygon3.Shared.fromColor args with
  | .ok newshared => .ok { s with poly := { s.poly with shared := newshared } }
  | .error e => .error e

/-- An explicit plane used by the concrete example polygons (none of the
measures read it). -/
def planeX : Plane :=
  ⟨⟨1, 0, 0⟩, 0⟩

/-- First vertex of the spec's example triangle. -/
def exV0 : Vertex :=
  ⟨⟨0, 0, 0⟩, none⟩

/-- Second vertex of the spec's example triangle. -/
def exV1 : Vertex :=
  ⟨⟨0, 10, 0⟩, none⟩

/-- Third vertex of the spec's example triangle. -/
def exV2 : Vertex :=
  ⟨⟨0, 10, 10⟩, none⟩

/-- The vertex loop of the spec's example triangle: positions
(0,0,0), (0,10,0), (0,10,10). -/
def exampleVertices : List Vertex :=
  [exV0, exV1, exV2]

/-- The plane normal of the spec's example triangle. -/
def exampleNormal : Vector3 :=
  ⟨1, 0, 0⟩

/-- The spec's example triangle as a polygon, with an explicit plane. -/
def examplePoly : Polygon3 :=
  ⟨exampleVertices, Polygon3.defaultShared, planeX⟩

/-- A triangle that does not pass through the origin, giving a nonzero signed
volume. -/
def volPoly : Polygon3 :=
  ⟨[⟨⟨1, 0, 0⟩, none⟩, ⟨⟨0, 1, 0⟩, none⟩, ⟨⟨0, 0, 1⟩, none⟩],
    Polygon3.defaultShared, planeX⟩

/-- A freshly constructed instance state over the example triangle. -/
def exState : Polygon3State :=
  Polygon3State.fresh examplePoly

/-- C1: `transform(M)` returns a polygon whose plane is the original plane
transformed by `M`, whose shared reference is unchanged, and whose vertices
are the original vertices each mapped through `M` — in reversed order exactly
when `M`'s mirroring predicate holds, in the original order otherwise. -/
theorem transform_spec (p : Polygon3) (m : Matrix4) :
    (p.transform m).plane = p.plane.transform m ∧
    (p.transform m).shared = p.shared ∧
    (p.transform m).vertices =
      (if m.isMirroring = true then (p.vertices.map (fun v => v.transform m)).reverse
       else p.vertices.map (fun v => v.transform m)) := by
  refine ⟨rfl, rfl, ?_⟩
  simp only [Polygon3.transform]

/-- C2: `flipped()` returns a polygon whose vertices are the original vertices
individually flipped and in reversed order, with the shared reference kept and
the plane flipped (normal and offset negated); applying `flipped()` twice
yields the original vertex positions in the original order and the original
plane normal. -/
theorem flipped_spec (p : Polygon3) :
    p.flipped.vertices = (p.vertices.map Vertex.flipped).reverse ∧
    p.flipped.shared = p.shared ∧
    p.flipped.plane = ⟨p.plane.normal.negated, -p.plane.w⟩ ∧
    p.flipped.flipped.vertices.map Vertex.pos = p.vertices.map Vertex.pos ∧
    p.flipped.flipped.plane.normal = p.plane.normal := by
  exact ⟨rfl, rfl, rfl,
    by simp [Polygon3.flipped, Vertex.flipped],
    by simp [Polygon3.flipped, Plane.flipped, RVec3.negated]⟩

/-- Folding addition of `f` over `List.range n` is the sum of `f` over
`Finset.range n`. -/
theorem foldl_add_range {M : Type} [AddCommMonoid M] (f : ℕ → M) (n : ℕ) :
    (List.range n).foldl (fun acc i => acc + f i) 0 = ∑ i in Finset.range n, f i := by
  induction n with
  | zero => simp
  | succ k ih =>
      rw [List.range_succ, List.foldl_append, ih, Finset.sum_range_succ]
      simp

/-- C5: for a polygon with at least three vertices, `getSignedVolume()` is the
sum over the interior indices of the scalar triple products of the fan
tetrahedra from vertex 0, divided by 6. -/
theorem getSignedVolume_spec (p : Polygon3) (_h : 3 ≤ p.vertices.length) :
    p.getSignedVolume =
      (∑ i in Finset.range (p.vertices.length - 2),
        (p.vertices.getD 0 Vertex.origin).pos.dot
          (((p.vertices.getD (i + 1) Vertex.origin).pos).cross
            ((p.vertices.getD (i + 2) Vertex.origin).pos))) / 6 := by
  unfold Polygon3.getSignedVolume
  rw [foldl_add_range]

/-- Witness for C5 on a concrete triangle. -/
theorem getSignedVolume_spec_witness :
    3 ≤ volPoly.vertices.length ∧
    volPoly.getSignedVolume =
      (∑ i in Finset.range (volPoly.vertices.length - 2),
        (volPoly.vertices.getD 0 Vertex.origin).pos.dot
          (((volPoly.vertices.getD (i + 1) Vertex.origin).pos).cross
            ((volPoly.vertices.getD (i + 2) Vertex.origin).pos))) / 6 :=
  ⟨by decide, getSignedVolume_spec volPoly (by decide)⟩

/-- C4: for a polygon with at least three vertices, `getArea()` is the sum of
half the magnitudes of the fan-triangle cross products from vertex 0; on the
spec's example triangle it is 50. -/
theorem getArea_spec :
    (∀ (p : Polygon3), 3 ≤ p.vertices.length →
      p.getArea = ∑ i in Finset.range (p.vertices.length - 2),
        (((p.vertices.getD (i + 1) Vertex.origin).pos.minus
            (p.vertices.getD 0 Vertex.origin).pos).cross
          ((p.vertices.getD (i + 2) Vertex.origin).pos.minus
            (p.vertices.getD (i + 1) Vertex.origin).pos)).length / 2) ∧
    examplePoly.getArea = 50 := by
  constructor
  · intro p _h
    unfold Polygon3.getArea
    rw [foldl_add_range, Finset.sum_div]
  · show Polygon3.getArea examplePoly = 50
    unfold Polygon3.getArea
    simp only [examplePoly, exampleVertices, exV0, exV1, exV2]
    norm_num [List.range_succ, List.range_zero, List.getD, Vector3.length,
      Vector3.lengthSquared, Vector3.dot, Vector3.minus, Vector3.cross,
      Vertex.origin]
    rw [show (10000 : ℝ) = (100 : ℝ) ^ 2 by norm_num,
      Real.sqrt_sq (by norm_num : (0 : ℝ) ≤ 100)]
    norm_num

/-- Witness for C4 on the spec's example triangle. -/
theorem getArea_spec_witness :
    3 ≤ examplePoly.vertices.length ∧
    examplePoly.getArea = ∑ i in Finset.range (examplePoly.vertices.length - 2),
      (((examplePoly.vertices.getD (i + 1) Vertex.origin).pos.minus
          (examplePoly.vertices.getD 0 Vertex.origin).pos).cross
        ((examplePoly.vertices.getD (i + 2) Vertex.origin).pos.minus
          (examplePoly.vertices.getD (i + 1) Vertex.origin).pos)).length / 2 :=
  ⟨by decide, getArea_spec.1 examplePoly (by decide)⟩

/-- C8: `getTetraFeatures` returns, in input order, the signed volume for each
"volume" entry and the area for each "area" entry, silently omitting every
unrecognized name. -/
theorem getTetraFeatures_spec (p : Polygon3) (features : List String) :
    p.getTetraFeatures features =
      features.filterMap (fun feature =>
        if feature = "volume" then some ((p.getSignedVolume : ℚ) : ℝ)
        else if feature = "area" then some p.getArea
        else none) := by
  have h : ∀ (fs : List String) (acc : List ℝ),
      fs.foldl (fun result feature =>
        if feature = "volume" then result ++ [((p.getSignedVolume : ℚ) : ℝ)]
        else if feature = "area" then result ++ [p.getArea]
        else result) acc
      = acc ++ fs.filterMap (fun feature =>
        if feature = "volume" then some ((p.getSignedVolume : ℚ) : ℝ)
        else if feature = "area" then some p.getArea
        else none) := by
    intro fs
    induction fs with
    | nil => intro acc; simp
    | cons f fs ih =>
        intro acc
        by_cases h1 : f = "volume"
        · simp [h1, ih]
        · by_cases h2 : f = "area"
          · simp [h1, h2, ih]
          · simp [h1, h2, ih]
  simpa using h features []

/-- Indexing the mapped position list agrees with indexing the vertex list. -/
theorem getD_map_pos (l : List Vertex) (i : ℕ) :
    (l.map Vertex.pos).getD i ⟨0, 0, 0⟩ = (l.getD i Vertex.origin).pos := by
  induction l generalizing i with
  | nil => simp [Vertex.origin]
  | cons v vs ih =>
      cases i with
      | zero => simp
      | succ j => simpa using ih j

/-- The convexity loop succeeds exactly when every walked triple forms a
convex corner; the triple at step `k` is read off the position list with the
two seed positions prepended. -/
theorem verticesConvexLoop_iff (normal : Vector3) (l : List Vector3) :
    ∀ pp p, (verticesConvexLoop normal pp p l = true ↔
      ∀ k, k < l.length →
        Polygon3.isConvexPoint ((pp :: p :: l).getD k ⟨0, 0, 0⟩)
          ((p :: l).getD k ⟨0, 0, 0⟩) (l.getD k ⟨0, 0, 0⟩) normal = true) := by
  induction l with
  | nil => intro pp p; simp [verticesConvexLoop]
  | cons c rest ih =>
      intro pp p
      rw [verticesConvexLoop]
      by_cases hc : Polygon3.isConvexPoint pp p c normal = true
      · rw [if_pos hc, ih p c]
        constructor
        · intro h k hk
          cases k with
          | zero => simpa using hc
          | succ j =>
              have hj : j < rest.length := by simpa using hk
              simpa using h j hj
        · intro h j hj
          have := h (j + 1) (by simpa using Nat.succ_lt_succ hj)
          simpa using this
      · rw [if_neg hc]
        constructor
        · intro hfalse
          exact absurd hfalse (by simp)
        · intro h
          exact absurd (by simpa using h 0 (by simp)) hc

/-- The triple walked at step `k` of `verticesConvex` is, with wrap-around
modulo the loop length, the triple of positions at indices `k − 2`, `k − 1`
and `k`. -/
theorem convexTripleBridge (vertices : List Vertex) (hn : 3 ≤ vertices.length)
    (k : ℕ) (hk : k < vertices.length) :
    ((vertices.getD (vertices.length - 2) Vertex.origin).pos ::
      (vertices.getD (vertices.length - 1) Vertex.origin).pos ::
        vertices.map Vertex.pos).getD k ⟨0, 0, 0⟩
      = (vertices.getD ((k + vertices.length - 2) % vertices.length) Vertex.origin).pos ∧
    ((vertices.getD (vertices.length - 1) Vertex.origin).pos ::
        vertices.map Vertex.pos).getD k ⟨0, 0, 0⟩
      = (vertices.getD ((k + vertices.length - 1) % vertices.length) Vertex.origin).pos ∧
    (vertices.map Vertex.pos).getD k ⟨0, 0, 0⟩ = (vertices.getD k Vertex.origin).pos := by
  refine ⟨?_, ?_, getD_map_pos vertices k⟩
  · cases k with
    | zero =>
        rw [List.getD_cons_zero, show 0 + vertices.length - 2 = vertices.length - 2 by omega,
          Nat.mod_eq_of_lt (by omega)]
    | succ k1 =>
        cases k1 with
        | zero =>
            rw [List.getD_cons_succ, List.getD_cons_zero,
              show 0 + 1 + vertices.length - 2 = vertices.length - 1 by omega,
              Nat.mod_eq_of_lt (by omega)]
        | succ j =>
            rw [List.getD_cons_succ, List.getD_cons_succ, getD_map_pos,
              show j + 1 + 1 + vertices.length - 2 = j + vertices.length by omega,
              Nat.add_mod_right, Nat.mod_eq_of_lt (by omega)]
  · cases k with
    | zero =>
        rw [List.getD_cons_zero, show 0 + vertices.length - 1 = vertices.length - 1 by omega,
          Nat.mod_eq_of_lt (by omega)]
    | succ j =>
        rw [List.getD_cons_succ, getD_map_pos,
          show j + 1 + vertices.length - 1 = j + vertices.length by omega,
          Nat.add_mod_right, Nat.mod_eq_of_lt (by omega)]

/-- C3: `verticesConvex` is true for every loop of at most two vertices, and
for longer loops it is true exactly when every consecutive triple, walked with
wrap-around starting from the last two vertices as the initial context,
satisfies (cur − prev) × (next − cur) · planeNormal ≥ 0; the strict variant
requires the dot product to reach the small positive epsilon instead. -/
theorem verticesConvex_spec (vertices : List Vertex) (normal : Vector3) :
    (vertices.length ≤ 2 → Polygon3.verticesConvex vertices normal = true) ∧
    (3 ≤ vertices.length →
      (Polygon3.verticesConvex vertices normal = true ↔
        ∀ k, k < vertices.length →
          0 ≤ ((((vertices.getD ((k + vertices.length - 1) % vertices.length) Vertex.origin).pos.minus
                  (vertices.getD ((k + vertices.length - 2) % vertices.length) Vertex.origin).pos).cross
                ((vertices.getD k Vertex.origin).pos.minus
                  (vertices.getD ((k + vertices.length - 1) % vertices.length) Vertex.origin).pos)).dot
              normal))) ∧
    (0 < EPS ∧ ∀ a b c : Vector3,
      (Polygon3.isStrictlyConvexPoint a b c normal = true ↔
        EPS ≤ ((b.minus a).cross (c.minus b)).dot normal)) := by
  refine ⟨?_, ?_, by norm_num [EPS], fun a b c => ?_⟩
  · intro hle
    simp only [Polygon3.verticesConvex]
    rw [if_neg (by omega)]
  · intro h3
    simp only [Polygon3.verticesConvex]
    rw [if_pos (by omega), verticesConvexLoop_iff]
    constructor
    · intro h k hk
      have hb := convexTripleBridge vertices h3 k hk
      have hc := h k (by simpa using hk)
      rw [hb.1, hb.2.1, hb.2.2] at hc
      simpa [Polygon3.isConvexPoint] using hc
    · intro h k hk
      have hk2 : k < vertices.length := by simpa using hk
      have hb := convexTripleBridge vertices h3 k hk2
      rw [hb.1, hb.2.1, hb.2.2]
      simpa [Polygon3.isConvexPoint] using h k hk2
  · simp [Polygon3.isStrictlyConvexPoint]

/-- Witness for C3 on the spec's example triangle. -/
theorem verticesConvex_spec_witness :
    3 ≤ exampleVertices.length ∧
    (Polygon3.verticesConvex exampleVertices exampleNormal = true ↔
      ∀ k, k < exampleVertices.length →
        0 ≤ ((((exampleVertices.getD ((k + exampleVertices.length - 1) % exampleVertices.length) Vertex.origin).pos.minus
                (exampleVertices.getD ((k + exampleVertices.length - 2) % exampleVertices.length) Vertex.origin).pos).cross
              ((exampleVertices.getD k Vertex.origin).pos.minus
                (exampleVertices.getD ((k + exampleVertices.length - 1) % exampleVertices.length) Vertex.origin).pos)).dot
            exampleNormal)) :=
  ⟨by decide, (verticesConvex_spec exampleVertices exampleNormal).2.1 (by decide)⟩

/-- A fold of `min` over a list bounds the start and every element from below
and is attained at one of them. -/
theorem foldl_min_spec {α : Type} [LinearOrder α] (l : List α) :
    ∀ a : α, l.foldl Min.min a ≤ a ∧ (∀ b ∈ l, l.foldl Min.min a ≤ b) ∧
      (l.foldl Min.min a = a ∨ l.foldl Min.min a ∈ l) := by
  induction l with
  | nil => intro a; simp
  | cons c cs ih =>
      intro a
      simp only [List.foldl_cons]
      have h := ih (Min.min a c)
      refine ⟨le_trans h.1 (min_le_left a c), ?_, ?_⟩
      · intro b hb
        rcases List.mem_cons.mp hb with hb | hb
        · rw [hb]; exact le_trans h.1 (min_le_right a c)
        · exact h.2.1 b hb
      · rcases h.2.2 with he | he
        · rcases min_choice a c with hm | hm
          · exact Or.inl (by rw [he, hm])
          · exact Or.inr (by rw [he, hm]; exact List.mem_cons_self c cs)
        · exact Or.inr (List.mem_cons_of_mem c he)

/-- A fold of `max` over a list bounds the start and every element from above
and is attained at one of them. -/
theorem foldl_max_spec {α : Type} [LinearOrder α] (l : List α) :
    ∀ a : α, a ≤ l.foldl Max.max a ∧ (∀ b ∈ l, b ≤ l.foldl Max.max a) ∧
      (l.foldl Max.max a = a ∨ l.foldl Max.max a ∈ l) := by
  induction l with
  | nil => intro a; simp
  | cons c cs ih =>
      intro a
      simp only [List.foldl_cons]
      have h := ih (Max.max a c)
      refine ⟨le_trans (le_max_left a c) h.1, ?_, ?_⟩
      · intro b hb
        rcases List.mem_cons.mp hb with hb | hb
        · rw [hb]; exact le_trans (le_max_right a c) h.1
        · exact h.2.1 b hb
      · rcases h.2.2 with he | he
        · rcases max_choice a c with hm | hm
          · exact Or.inl (by rw [he, hm])
          · exact Or.inr (by rw [he, hm]; exact List.mem_cons_self c cs)
        · exact Or.inr (List.mem_cons_of_mem c he)

/-- The paired min/max fold of the bounding-box loop computes the three
componentwise folds. -/
theorem bbox_fold_proj (l : List Vertex) :
    ∀ mn mx : Vector3,
      l.foldl (fun acc v => (acc.1.min v.pos, acc.2.max v.pos)) (mn, mx) =
        (⟨(l.map (fun v => v.pos.x)).foldl Min.min mn.x,
          (l.map (fun v => v.pos.y)).foldl Min.min mn.y,
          (l.map (fun v => v.pos.z)).foldl Min.min mn.z⟩,
         ⟨(l.map (fun v => v.pos.x)).foldl Max.max mx.x,
          (l.map (fun v => v.pos.y)).foldl Max.max mx.y,
          (l.map (fun v => v.pos.z)).foldl Max.max mx.z⟩) := by
  induction l with
  | nil => intro mn mx; rfl
  | cons v vs ih =>
      intro mn mx
      simp only [List.foldl_cons, List.map_cons]
      rw [ih]
      rfl

/-- The bounding box of a nonempty vertex list, as componentwise folds
starting at the first position. -/
theorem boundingBoxCompute_cons (v : Vertex) (vs : List Vertex) :
    boundingBoxCompute (v :: vs) =
      (⟨(vs.map (fun w => w.pos.x)).foldl Min.min v.pos.x,
        (vs.map (fun w => w.pos.y)).foldl Min.min v.pos.y,
        (vs.map (fun w => w.pos.z)).foldl Min.min v.pos.z⟩,
       ⟨(vs.map (fun w => w.pos.x)).foldl Max.max v.pos.x,
        (vs.map (fun w => w.pos.y)).foldl Max.max v.pos.y,
        (vs.map (fun w => w.pos.z)).foldl Max.max v.pos.z⟩) := by
  show ((v :: vs).drop 1).foldl _ (v.pos, v.pos) = _
  rw [show (v :: vs).drop 1 = vs from rfl, bbox_fold_proj]

/-- C6: `boundingBox()` is the componentwise minimum and maximum of all vertex
positions (both the origin for a vertex-free polygon), and `boundingSphere()`
is the midpoint of the two box corners together with its distance to the max
corner. -/
theorem bounds_spec (p : Polygon3) :
    (p.vertices = [] → p.boundingBox = (⟨0, 0, 0⟩, ⟨0, 0, 0⟩)) ∧
    (∀ v ∈ p.vertices,
      p.boundingBox.1.x ≤ v.pos.x ∧ p.boundingBox.1.y ≤ v.pos.y ∧
      p.boundingBox.1.z ≤ v.pos.z ∧ v.pos.x ≤ p.boundingBox.2.x ∧
      v.pos.y ≤ p.boundingBox.2.y ∧ v.pos.z ≤ p.boundingBox.2.z) ∧
    (p.vertices ≠ [] →
      ((∃ a ∈ p.vertices, p.boundingBox.1.x = a.pos.x) ∧
       (∃ a ∈ p.vertices, p.boundingBox.1.y = a.pos.y) ∧
       (∃ a ∈ p.vertices, p.boundingBox.1.z = a.pos.z) ∧
       (∃ a ∈ p.vertices, p.boundingBox.2.x = a.pos.x) ∧
       (∃ a ∈ p.vertices, p.boundingBox.2.y = a.pos.y) ∧
       (∃ a ∈ p.vertices, p.boundingBox.2.z = a.pos.z))) ∧
    (p.boundingSphere.1.x = (p.boundingBox.1.x + p.boundingBox.2.x) / 2 ∧
     p.boundingSphere.1.y = (p.boundingBox.1.y + p.boundingBox.2.y) / 2 ∧
     p.boundingSphere.1.z = (p.boundingBox.1.z + p.boundingBox.2.z) / 2) ∧
    p.boundingSphere.2 = Real.sqrt
      (((p.boundingBox.2.x - p.boundingSphere.1.x : ℚ) : ℝ) ^ 2 +
       ((p.boundingBox.2.y - p.boundingSphere.1.y : ℚ) : ℝ) ^ 2 +
       ((p.boundingBox.2.z - p.boundingSphere.1.z : ℚ) : ℝ) ^ 2) := by
  refine ⟨?_, ?_, ?_, ?_, ?_⟩
  · intro h
    simp only [Polygon3.boundingBox, h]
    rfl
  · intro v hv
    rcases hve : p.vertices with _ | ⟨w, ws⟩
    · rw [hve] at hv; cases hv
    · rw [hve] at hv
      simp only [Polygon3.boundingBox, hve, boundingBoxCompute_cons]
      rcases List.mem_cons.mp hv with hv | hv
      · subst hv
        exact ⟨(foldl_min_spec _ _).1, (foldl_min_spec _ _).1, (foldl_min_spec _ _).1,
          (foldl_max_spec _ _).1, (foldl_max_spec _ _).1, (foldl_max_spec _ _).1⟩
      · exact ⟨(foldl_min_spec _ _).2.1 _ (List.mem_map_of_mem _ hv),
          (foldl_min_spec _ _).2.1 _ (List.mem_map_of_mem _ hv),
          (foldl_min_spec _ _).2.1 _ (List.mem_map_of_mem _ hv),
          (foldl_max_spec _ _).2.1 _ (List.mem_map_of_mem _ hv),
          (foldl_max_spec _ _).2.1 _ (List.mem_map_of_mem _ hv),
          (foldl_max_spec _ _).2.1 _ (List.mem_map_of_mem _ hv)⟩
  · intro hne
    rcases hve : p.vertices with _ | ⟨w, ws⟩
    · exact absurd hve hne
    · simp only [Polygon3.boundingBox, hve, boundingBoxCompute_cons]
      refine ⟨?_, ?_, ?_, ?_, ?_, ?_⟩
      · rcases (foldl_min_spec (ws.map (fun v => v.pos.x)) w.pos.x).2.2 with he | he
        · exact ⟨w, List.mem_cons_self w ws, he⟩
        · rcases List.mem_map.mp he with ⟨a, ha, hae⟩
          exact ⟨a, List.mem_cons_of_mem w ha, hae.symm⟩
      · rcases (foldl_min_spec (ws.map (fun v => v.pos.y)) w.pos.y).2.2 with he | he
        · exact ⟨w, List.mem_cons_self w ws, he⟩
        · rcases List.mem_map.mp he with ⟨a, ha, hae⟩
          exact ⟨a, List.mem_cons_of_mem w ha, hae.symm⟩
      · rcases (foldl_min_spec (ws.map (fun v => v.pos.z)) w.pos.z).2.2 with he | he
        · exact ⟨w, List.mem_cons_self w ws, he⟩
        · rcases List.mem_map.mp he with ⟨a, ha, hae⟩
          exact ⟨a, List.mem_cons_of_mem w ha, hae.symm⟩
      · rcases (foldl_max_spec (ws.map (fun v => v.pos.x)) w.pos.x).2.2 with he | he
        · exact ⟨w, List.mem_cons_self w ws, he⟩
        · rcases List.mem_map.mp he with ⟨a, ha, hae⟩
          exact ⟨a, List.mem_cons_of_mem w ha, hae.symm⟩
      · rcases (foldl_max_spec (ws.map (fun v => v.pos.y)) w.pos.y).2.2 with he | he
        · exact ⟨w, List.mem_cons_self w ws, he⟩
        · rcases List.mem_map.mp he with ⟨a, ha, hae⟩
          exact ⟨a, List.mem_cons_of_mem w ha, hae.symm⟩
      · rcases (foldl_max_spec (ws.map (fun v => v.pos.z)) w.pos.z).2.2 with he | he
        · exact ⟨w, List.mem_cons_self w ws, he⟩
        · rcases List.mem_map.mp he with ⟨a, ha, hae⟩
          exact ⟨a, List.mem_cons_of_mem w ha, hae.symm⟩
  · refine ⟨?_, ?_, ?_⟩ <;>
      · simp only [Polygon3.boundingSphere, Vector3.plus, Vector3.times]
        ring
  · simp only [Polygon3.boundingSphere, Vector3.length, Vector3.lengthSquared,
      Vector3.dot, Vector3.minus, Vector3.plus, Vector3.times]
    congr 1
    push_cast
    ring

/-- Witness for C6: attained componentwise extrema on the example triangle. -/
theorem bounds_spec_witness :
    examplePoly.vertices ≠ [] ∧
    ((∃ a ∈ examplePoly.vertices, examplePoly.boundingBox.1.x = a.pos.x) ∧
     (∃ a ∈ examplePoly.vertices, examplePoly.boundingBox.1.y = a.pos.y) ∧
     (∃ a ∈ examplePoly.vertices, examplePoly.boundingBox.1.z = a.pos.z) ∧
     (∃ a ∈ examplePoly.vertices, examplePoly.boundingBox.2.x = a.pos.x) ∧
     (∃ a ∈ examplePoly.vertices, examplePoly.boundingBox.2.y = a.pos.y) ∧
     (∃ a ∈ examplePoly.vertices, examplePoly.boundingBox.2.z = a.pos.z)) :=
  ⟨by decide, (bounds_spec examplePoly).2.2.1 (by decide)⟩

/-- C7 (amended): the `Shared` constructor rejects every non-null color that
is not a 4 element array with an InvalidColor error; `fromColor` accepts 3 or
4 numeric arguments or a single 3- or 4-element array, appending alpha 1 to a
3 element color, and fails with an InvalidColor error at every other arity —
except a single non-array argument, whose attempted array copy fails with a
TypeError. -/
theorem shared_color_spec :
    (∀ c : List JSVal, c.length ≠ 4 →
      Polygon3.Shared.make (some c) =
        Except.error (JSError.invalidColor "Expecting 4 element array")) ∧
    (∀ c : List JSVal, c.length = 4 →
      Polygon3.Shared.make (some c) = Except.ok ⟨some c⟩) ∧
    (Polygon3.Shared.make none = Except.ok ⟨none⟩) ∧
    (∀ r g b : ℚ, Polygon3.Shared.fromColor [JSVal.num r, JSVal.num g, JSVal.num b] =
      Except.ok ⟨some [JSVal.num r, JSVal.num g, JSVal.num b, JSVal.num 1]⟩) ∧
    (∀ r g b a : ℚ,
      Polygon3.Shared.fromColor [JSVal.num r, JSVal.num g, JSVal.num b, JSVal.num a] =
        Except.ok ⟨some [JSVal.num r, JSVal.num g, JSVal.num b, JSVal.num a]⟩) ∧
    (∀ l : List ℚ, l.length = 3 →
      Polygon3.Shared.fromColor [JSVal.arr l] =
        Except.ok ⟨some (l.map JSVal.num ++ [JSVal.num 1])⟩) ∧
    (∀ l : List ℚ, l.length = 4 →
      Polygon3.Shared.fromColor [JSVal.arr l] = Except.ok ⟨some (l.map JSVal.num)⟩) ∧
    (∀ l : List ℚ, l.length ≠ 3 → l.length ≠ 4 →
      Polygon3.Shared.fromColor [JSVal.arr l] =
        Except.error (JSError.invalidColor fromColorMsg)) ∧
    (∀ args : List JSVal, args.length ≠ 1 → args.length ≠ 3 → args.length ≠ 4 →
      Polygon3.Shared.fromColor args = Except.error (JSError.invalidColor fromColorMsg)) ∧
    (∀ q : ℚ, Polygon3.Shared.fromColor [JSVal.num q] =
      Except.error (JSError.typeError "arguments[0].slice is not a function")) := by
  refine ⟨?_, ?_, rfl, fun r g b => rfl, fun r g b a => rfl, ?_, ?_, ?_, ?_, fun q => rfl⟩
  · intro c h
    simp [Polygon3.Shared.make, h]
  · intro c h
    simp [Polygon3.Shared.make, h]
  · intro l h
    simp [Polygon3.Shared.fromColor, Polygon3.Shared.make, h]
  · intro l h
    simp [Polygon3.Shared.fromColor, Polygon3.Shared.make, h]
  · intro l h3 h4
    simp [Polygon3.Shared.fromColor, h3, h4]
  · intro args h1 h3 h4
    simp [Polygon3.Shared.fromColor, h1, h3, h4]

/-- Witness for C7: the 2 element color array is rejected by the constructor
with the InvalidColor error. -/
theorem shared_color_spec_witness :
    ([JSVal.num 0, JSVal.num 0].length ≠ 4) ∧
    Polygon3.Shared.make (some [JSVal.num 0, JSVal.num 0]) =
      Except.error (JSError.invalidColor "Expecting 4 element array") :=
  ⟨by decide, shared_color_spec.1 [JSVal.num 0, JSVal.num 0] (by decide)⟩

/-- Counterexample for C7 as stated: a single numeric argument is an arity
other than the accepted ones, yet `fromColor` fails with a TypeError (from
`arguments[0].slice()`), not with an InvalidColor error. -/
theorem fromColor_single_number_counterexample :
    Polygon3.Shared.fromColor [JSVal.num 0] =
      Except.error (JSError.typeError "arguments[0].slice is not a function") ∧
    JSError.isInvalidColor (JSError.typeError "arguments[0].slice is not a function") = false :=
  ⟨rfl, rfl⟩

/-- C9 (amended): every operation other than `setColor` leaves the receiver
unchanged — `transform`, `translate`, `flipped` and the measures return the
receiver exactly as it was, and the bounds queries change at most the
memoization slots, idempotently; `setColor`, however, replaces the receiver's
shared reference with the `fromColor` result of its arguments. -/
theorem immutability_spec (s : Polygon3State) (m : Matrix4) (offset : Vector3)
    (features : List String) (args : List JSVal) (sh : Polygon3.Shared) :
    (s.transform m).2 = s ∧
    (s.translate offset).2 = s ∧
    s.flipped.2 = s ∧
    s.getSignedVolume.2 = s ∧
    s.getArea.2 = s ∧
    (s.getTetraFeatures features).2 = s ∧
    s.boundingBox.2.poly = s.poly ∧
    s.boundingSphere.2.poly = s.poly ∧
    s.boundingBox.2.boundingBox = (s.boundingBox.1, s.boundingBox.2) ∧
    s.boundingSphere.2.boundingSphere = (s.boundingSphere.1, s.boundingSphere.2) ∧
    (Polygon3.Shared.fromColor args = Except.ok sh →
      s.setColor args = Except.ok { s with poly := { s.poly with shared := sh } }) := by
  refine ⟨rfl, rfl, rfl, rfl, rfl, rfl, ?_, ?_, ?_, ?_, ?_⟩
  · unfold Polygon3State.boundingBox
    cases hc : s.cachedBoundingBox <;> simp [hc]
  · unfold Polygon3State.boundingSphere Polygon3State.boundingBox
    cases hc : s.cachedBoundingSphere <;> cases hb : s.cachedBoundingBox <;> simp [hc, hb]
  · unfold Polygon3State.boundingBox
    cases hc : s.cachedBoundingBox <;> simp [hc]
  · unfold Polygon3State.boundingSphere Polygon3State.boundingBox
    cases hc : s.cachedBoundingSphere <;> cases hb : s.cachedBoundingBox <;> simp [hc, hb]
  · intro h
    unfold Polygon3State.setColor
    rw [h]

/-- Witness for C9: `setColor` on a concrete instance, with the `fromColor`
hypothesis discharged by computation. -/
theorem immutability_spec_witness :
    Polygon3.Shared.fromColor [JSVal.num 1, JSVal.num 1, JSVal.num 1] =
      Except.ok ⟨some [JSVal.num 1, JSVal.num 1, JSVal.num 1, JSVal.num 1]⟩ ∧
    exState.setColor [JSVal.num 1, JSVal.num 1, JSVal.num 1] =
      Except.ok { exState with poly := { exState.poly with
        shared := ⟨some [JSVal.num 1, JSVal.num 1, JSVal.num 1, JSVal.num 1]⟩ } } :=
  ⟨rfl,
    ((immutability_spec exState (Matrix4.translation ⟨0, 0, 0⟩) ⟨0, 0, 0⟩ [] _ _).2.2.2.2.2.2.2.2.2.2) rfl⟩

/-- Counterexample for C9 as stated: `setColor` is an operation other than the
bounds memoization, yet it changes the receiver's shared reference. -/
theorem setColor_mutates_counterexample :
    exState.setColor [JSVal.num 1, JSVal.num 0, JSVal.num 0] =
      Except.ok { exState with poly := { exState.poly with
        shared := ⟨some [JSVal.num 1, JSVal.num 0, JSVal.num 0, JSVal.num 1]⟩ } } ∧
    (⟨some [JSVal.num 1, JSVal.num 0, JSVal.num 0, JSVal.num 1]⟩ : Polygon3.Shared) ≠
      exState.poly.shared :=
  ⟨rfl, by decide⟩

/-- C10: constructing without an explicit plane derives it from the positions
of the first three vertices, so it succeeds exactly on vertex lists of length
at least 3; an explicit plane is taken as given for any vertex list. -/
theorem constructor_plane_spec (vs : List Vertex) (sh : Option Polygon3.Shared) (pl : Plane) :
    ((Polygon3.make vs sh none).isSome = true ↔ 3 ≤ vs.length) ∧
    (∀ v0 v1 v2 rest, vs = v0 :: v1 :: v2 :: rest →
      Polygon3.make vs sh none =
        some ⟨vs, sh.getD Polygon3.defaultShared, Plane.fromVector3Ds v0.pos v1.pos v2.pos⟩) ∧
    (Polygon3.make vs sh (some pl) = some ⟨vs, sh.getD Polygon3.defaultShared, pl⟩) := by
  refine ⟨?_, ?_, rfl⟩
  · match vs with
    | [] => simp [Polygon3.make]
    | [a] => simp [Polygon3.make]
    | [a, b] => simp [Polygon3.make]
    | a :: b :: c :: rest =>
        simp only [Polygon3.make, Option.isSome_some, List.length_cons, true_iff]
        omega
  · intro v0 v1 v2 rest hvs
    subst hvs
    rfl

/-- Witness for C10 on the example triangle's vertex list. -/
theorem constructor_plane_spec_witness :
    exampleVertices = exV0 :: exV1 :: exV2 :: [] ∧
    Polygon3.make exampleVertices none none =
      some ⟨exampleVertices, Option.none.getD Polygon3.defaultShared,
        Plane.fromVector3Ds exV0.pos exV1.pos exV2.pos⟩ :=
  ⟨rfl, (constructor_plane_spec exampleVertices none planeX).2.1 exV0 exV1 exV2 [] rfl⟩

end CSG
